import Mathlib

/-!
# EdgeFinder API — payment settlement and entitlement core, shallow embedding

This file embeds the payment core of the EdgeFinder API (TypeScript) in Lean:

* `src/utils/validation.ts` — `validatePermit`, `validateRequirements`
  (plus the Supabase data-access functions `getLatestSharedDataset`,
  `grantDatasetAccess` that live in the same source unit);
* `src/services/payment.ts` — `startPayment`, `settlePayment` with the
  facilitator retry/backoff loop.

External effects are passed as explicit parameters: the current time
(`Date.now()` in milliseconds, or its floor-divided Unix-seconds form),
the freshly generated random nonce, the facilitator's HTTP responses
(one per attempt for the settle loop), and the persistence store as a
list of rows.  JavaScript truthiness of optional string/number fields is
modelled by `jsTruthyStr` / `jsTruthyInt`.  The address validator is the
external `viem` library's `isAddress`, whose source is not part of this
repository; functions that call it take it as an explicit parameter
`isValidAddress : String → Bool`.
-/

namespace EdgeFinder

/-! ## JavaScript-semantics helpers -/

/-- Truthiness of an optional string field of a JS object: absent
(`undefined`) and the empty string are falsy. -/
def jsTruthyStr (o : Option String) : Bool :=
  match o with
  | none => false
  | some s => s ≠ ""

/-- Truthiness of an optional numeric field: absent and `0` are falsy. -/
def jsTruthyInt (o : Option Int) : Bool :=
  match o with
  | none => false
  | some n => n ≠ 0

/-- Whether `pat` occurs as a contiguous sublist of the second argument. -/
def listContains (pat : List Char) : List Char → Bool
  | [] => pat.isPrefixOf []
  | c :: t => pat.isPrefixOf (c :: t) || listContains pat t

/-- JS `body.includes(sub)`: `sub` occurs as a contiguous substring. -/
def strIncludes (body sub : String) : Bool :=
  listContains sub.toList body.toList

/-- JS `s.slice(a, b)` for `a ≤ b` (clamps at the string's end). -/
def strSlice (s : String) (a b : Nat) : String :=
  String.mk ((s.toList.drop a).take (b - a))

/-- Value of one hexadecimal digit (either case), `none` for a
non-digit, working on the character's code point (digits 48–57,
lower-case letters 97–102, upper-case letters 65–70). -/
def hexDigitVal (c : Char) : Option Nat :=
  let cp := c.toNat
  if 48 ≤ cp ∧ cp ≤ 57 then some (cp - 48)
  else if 97 ≤ cp ∧ cp ≤ 102 then some (cp - 87)
  else if 65 ≤ cp ∧ cp ≤ 70 then some (cp - 55)
  else none

/-- One hexadecimal digit (both cases), as accepted by `[a-fA-F0-9]`. -/
def isHexDigit (c : Char) : Bool :=
  (hexDigitVal c).isSome

/-- JS `parseInt(s, 16)` restricted to the inputs the code produces
(no leading whitespace, sign, or `0x` prefix — the argument is a slice
of an already hex-shaped string): parses the longest hex-digit prefix,
`none` standing for `NaN` when there is no digit at all. -/
def parseIntHex (s : String) : Option Nat :=
  let ds := s.toList.takeWhile (fun c => (hexDigitVal c).isSome)
  match ds with
  | [] => none
  | _ => some (ds.foldl (fun acc c => acc * 16 + (hexDigitVal c).getD 0) 0)

/-- The regular expression `/^0x[a-fA-F0-9]{n}$/` from `validation.ts`:
the string is `0x` followed by exactly `n` hex characters. -/
def matchesHexRe (n : Nat) (s : String) : Bool :=
  match s.toList with
  | '0' :: 'x' :: rest => rest.length == n && rest.all isHexDigit
  | _ => false

/-! ## validation.ts -/

/-- The `permit` argument of `validatePermit` as received from the HTTP
layer: each field may be absent.  (The `!permit || typeof permit !==
'object'` guard is subsumed: the embedding always passes an object.) -/
structure PermitInput where
  owner : Option String
  spender : Option String
  value : Option String
  deadline : Option Int
  nonce : Option String
  sig : Option String
deriving Repr, DecidableEq

/-- The `requirements` argument of `validateRequirements`. -/
structure RequirementsInput where
  network : Option String
  token : Option String
  recipient : Option String
  amount : Option String
  nonce : Option String
  deadline : Option Int
deriving Repr, DecidableEq

/-- Embedding of `validatePermit` from `src/utils/validation.ts`.  `isValidAddress`
is `viem`'s `isAddress` (external library, passed as a parameter);
`now` is `Math.floor(Date.now() / 1000)` at the moment of validation. -/
def validatePermit (isValidAddress : String → Bool) (now : Int)
    (p : PermitInput) : Bool :=
  -- required-fields truthiness loop, in source order
  jsTruthyStr p.owner && jsTruthyStr p.spender && jsTruthyStr p.value &&
  jsTruthyInt p.deadline && jsTruthyStr p.nonce && jsTruthyStr p.sig &&
  -- address checks
  isValidAddress (p.owner.getD "") && isValidAddress (p.spender.getD "") &&
  -- signature format (0x + 130 hex chars)
  matchesHexRe 130 (p.sig.getD "") &&
  -- nonce format (0x + 64 hex chars)
  matchesHexRe 64 (p.nonce.getD "") &&
  -- deadline in the future: `permit.deadline <= now` returns false
  decide (now < p.deadline.getD 0)

/-- Embedding of `validateRequirements` from `src/utils/validation.ts`. -/
def validateRequirements (isValidAddress : String → Bool)
    (r : RequirementsInput) : Bool :=
  jsTruthyStr r.network && jsTruthyStr r.token && jsTruthyStr r.recipient &&
  jsTruthyStr r.amount && jsTruthyStr r.nonce && jsTruthyInt r.deadline &&
  (r.network.getD "" == "arbitrum") &&
  isValidAddress (r.recipient.getD "") &&
  isValidAddress (r.token.getD "")

/-! ## Configuration (`src/config.ts`) -/

/-- The fields of `CONFIG` that the payment service reads.  Environment
variables default to `''` in `config.ts`, so a "missing" value is the
empty string and the code's `!CONFIG.X` checks are emptiness checks. -/
structure Config where
  NODE_ENV : String
  DEV_BYPASS_SECRET : String
  FACILITATOR_API_URL : String
  FACILITATOR_API_KEY : String
  MERCHANT_ADDRESS : String
deriving Repr, DecidableEq

/-- The constant `CONFIG.PAYMENT.AMOUNT_USDC`. -/
def AMOUNT_USDC : String := "1000000"

/-- The constant `CONFIG.PAYMENT.USDC_ADDRESS`. -/
def USDC_ADDRESS : String := "0xaf88d065e77c8cC2239327C5EDb3A432268e5831"

/-! ## startPayment (`src/services/payment.ts`) -/

/-- The `PaymentRequirements` record of `src/types.ts`. -/
structure PaymentRequirements where
  network : String
  token : String
  recipient : String
  amount : String
  nonce : String
  deadline : Int
deriving Repr, DecidableEq

/-- The `Permit` record of `src/types.ts`. -/
structure Permit where
  owner : String
  spender : String
  value : String
  deadline : Int
  nonce : String
  sig : String
deriving Repr, DecidableEq

/-- The dev-bypass guard shared verbatim by `startPayment` and
`settlePayment`:
`CONFIG.NODE_ENV !== 'production' && devBypass && devBypass ===
CONFIG.DEV_BYPASS_SECRET`. -/
def devBypassActive (cfg : Config) (devBypass : Option String) : Bool :=
  decide (cfg.NODE_ENV ≠ "production") && jsTruthyStr devBypass &&
    (devBypass.getD "" == cfg.DEV_BYPASS_SECRET)

/-- Embedding of `createDevBypassResponse`: `nonce` is the freshly generated random
32-byte nonce (effect passed in), `nowMs` is `Date.now()`;
the deadline is `Math.floor(Date.now() / 1000) + 3600`. -/
def createDevBypassResponse (nowMs : Nat) (nonce : String) :
    PaymentRequirements :=
  { network := "arbitrum"
    token := USDC_ADDRESS
    recipient := "0x0000000000000000000000000000000000000000"
    amount := AMOUNT_USDC
    nonce := nonce
    deadline := (nowMs / 1000 + 3600 : Nat) }

/-- The fee constants of the live quote path, as written in
`startPayment` (`900000n`, `50n`, `10000n`, `100000n`, BigInt
arithmetic). -/
def merchantAmount : Nat := 900000

/-- Fee in basis points (`50n` in the source). -/
def feeBasisPoints : Nat := 50

/-- The fee `serviceFee = (merchantAmount * 50n) / 10000n` — BigInt division
truncates, which on naturals is `Nat` division. -/
def serviceFee : Nat := merchantAmount * feeBasisPoints / 10000

/-- The constant `gasFee = 100000n`. -/
def gasFee : Nat := 100000

/-- The total `totalAmount = merchantAmount + serviceFee + gasFee`. -/
def totalAmount : Nat := merchantAmount + serviceFee + gasFee

/-- The quote request body `POST {base}/requirements` sent by
`startPayment`. -/
structure QuoteRequest where
  amount : String
  memo : String
  network : String
  token : String
  merchantAddress : String
deriving Repr, DecidableEq

/-- One entry of the facilitator's `accepts` array; `extra` is
optional, with optional `nonce` / `deadline` inside. -/
structure AcceptsItem where
  network : String
  asset : String
  payTo : String
  maxAmountRequired : String
  extraNonce : Option String
  extraDeadline : Option Int
deriving Repr, DecidableEq

/-- The resolved outcome of the quote `fetch`: an HTTP response with a
status, the parsed `accepts` array (an absent `accepts` field and an
empty one take the same code path, so both are `[]`), and the raw body
text used in error messages — or a thrown network error. -/
inductive QuoteOutcome where
  | http (status : Nat) (accepts : List AcceptsItem) (bodyText : String)
  | thrown (msg : String)
deriving Repr, DecidableEq

/-- The Fetch API's `response.ok`: status in 200–299. -/
def respOk (status : Nat) : Bool :=
  200 ≤ status && status < 300

/-- What one call of `startPayment` did: whether the dev bypass fired,
the quote request sent to the facilitator (if any), and the returned
`PaymentRequirements` or the thrown error's message. -/
structure StartTrace where
  usedBypass : Bool
  sentRequest : Option QuoteRequest
  result : Except String PaymentRequirements
deriving Repr

/-- Embedding of `startPayment` from `src/services/payment.ts`.  `nowMs` is
`Date.now()` (milliseconds), `freshNonce` the random nonce the bypass
path would generate, `quote` the facilitator's response to the quote
request.  `walletAddress` is accepted and unused, as in the source. -/
def startPayment (cfg : Config) (nowMs : Nat) (freshNonce : String)
    (quote : QuoteOutcome) (walletAddress : String)
    (devBypass : Option String) : StartTrace :=
  if devBypassActive cfg devBypass then
    ⟨true, none, .ok (createDevBypassResponse nowMs freshNonce)⟩
  else if cfg.FACILITATOR_API_URL == "" || cfg.MERCHANT_ADDRESS == "" then
    ⟨false, none, .error "Facilitator configuration not available"⟩
  else
    let req : QuoteRequest :=
      { amount := toString totalAmount
        memo := "EdgeFinder scan"
        network := "arbitrum"
        token := "USDC"
        merchantAddress := cfg.MERCHANT_ADDRESS }
    match quote with
    | .thrown msg => ⟨false, some req, .error msg⟩
    | .http status accepts bodyText =>
      if !respOk status && status ≠ 402 then
        ⟨false, some req, .error ("Facilitator error: " ++ bodyText)⟩
      else
        match accepts with
        | [] => ⟨false, some req,
            .error "Invalid response from payment facilitator"⟩
        | item :: _ =>
          if item.network ≠ "arbitrum" then
            ⟨false, some req, .error "Only Arbitrum network is supported"⟩
          else
            ⟨false, some req, .ok
              { network := item.network
                token := item.asset
                recipient := item.payTo
                amount := item.maxAmountRequired
                -- `acceptsItem.extra?.nonce || ''`
                nonce := if jsTruthyStr item.extraNonce then
                    item.extraNonce.getD "" else ""
                -- `acceptsItem.extra?.deadline || Date.now() + 3600000`
                deadline := if jsTruthyInt item.extraDeadline then
                    item.extraDeadline.getD 0
                  else ((nowMs : Int) + 3600000) }⟩

/-! ## settlePayment (`src/services/payment.ts`) -/

/-- The fields of the parsed JSON body that the success branch of the
settle loop reads: `data.txHash`, `data.transactionHash`,
`data.meta?.incomingTxHash`.  Absent or empty strings are falsy in the
`||` chain. -/
structure SettleData where
  txHash : Option String
  transactionHash : Option String
  metaIncomingTxHash : Option String
deriving Repr, DecidableEq

/-- The chain `data.txHash || data.transactionHash || data.meta?.incomingTxHash
|| 'unknown'`. -/
def extractTxHash (d : SettleData) : String :=
  if jsTruthyStr d.txHash then d.txHash.getD ""
  else if jsTruthyStr d.transactionHash then d.transactionHash.getD ""
  else if jsTruthyStr d.metaIncomingTxHash then d.metaIncomingTxHash.getD ""
  else "unknown"

/-- The resolved outcome of one settle-loop `fetch`: an HTTP response
carrying the status, the parsed success payload (only read when
`response.ok`), and the body text (only read when not ok) — or a thrown
network-level error with its `message`. -/
inductive AttemptOutcome where
  | http (status : Nat) (payload : SettleData) (bodyText : String)
  | thrown (msg : String)
deriving Repr, DecidableEq

/-- Classification `errorText.includes('nonce uniqueness') ||
errorText.includes('checking nonce')`. -/
def isNonceError (errorText : String) : Bool :=
  strIncludes errorText "nonce uniqueness" ||
    strIncludes errorText "checking nonce"

/-- Classification `errorText.includes('database') ||
errorText.includes('Internal error')`. -/
def isDatabaseError (errorText : String) : Bool :=
  strIncludes errorText "database" || strIncludes errorText "Internal error"

/-- Disjunction `isServerError || isNonceError || isDatabaseError` with
`isServerError = statusCode >= 500`. -/
def isRetryable (statusCode : Nat) (errorText : String) : Bool :=
  (500 ≤ statusCode : Bool) || isNonceError errorText ||
    isDatabaseError errorText

/-- Loop bound `const maxRetries = 4`. -/
def maxRetries : Nat := 4

/-- Base delay `const baseRetryDelay = 1000` (milliseconds). -/
def baseRetryDelay : Nat := 1000

/-- Final outcome of the settle loop: the resolved value
`{success: true, txHash}` or the message of the thrown `Error`. -/
inductive SettleResult where
  | success (txHash : String)
  | failure (msg : String)
deriving Repr, DecidableEq

/-- Observable behaviour of the settle loop: how many facilitator calls
were made, the backoff delays awaited (in order, milliseconds), and the
final result. -/
structure SettleTrace where
  calls : Nat
  delays : List Nat
  result : SettleResult
deriving Repr, DecidableEq

/-- The `for (let attempt = 1; attempt <= maxRetries; attempt++)` loop
of `settlePayment`, with `fac attempt` the facilitator's behaviour on
the given (1-indexed) attempt and `fuel` the number of remaining
attempts (`fuel = maxRetries - attempt + 1`, so `fuel = 1` on the last
attempt).

The body is a `try`/`catch` and — crucially — the
`throw new Error('Payment settlement failed: ' + errorText)` raised for
a non-retryable response (or on the last attempt) sits INSIDE the
`try`, so it is caught by the loop's own `catch`, which delays and
retries whenever `attempt !== maxRetries`.  The embedding reproduces
that control flow branch by branch. -/
def settleAux (fac : Nat → AttemptOutcome) (attempt : Nat) :
    Nat → SettleTrace
  | 0 =>
    -- loop exhausted: `throw lastError || new Error('Payment settlement
    -- failed')` (unreachable when started with positive fuel)
    ⟨0, [], .failure "Payment settlement failed"⟩
  | fuel + 1 =>
    match fac attempt with
    | .http status payload bodyText =>
      if respOk status then
        -- `if (response.ok) { ... return {success: true, txHash, ...} }`
        ⟨1, [], .success (extractTxHash payload)⟩
      else
        -- classification of the non-success response
        let retryable := isRetryable status bodyText
        if !retryable || fuel == 0 then
          -- `throw new Error('Payment settlement failed: ' + errorText)`
          -- — thrown inside `try`, caught by the `catch` below
          if fuel == 0 then
            -- catch: `attempt === maxRetries` → rethrow wrapped
            ⟨1, [], .failure ("Payment settlement failed after " ++
              toString maxRetries ++ " attempts: " ++
              "Payment settlement failed: " ++ bodyText)⟩
          else
            -- catch: delay `baseRetryDelay * 2^(attempt-1)`, next attempt
            let rest := settleAux fac (attempt + 1) fuel
            ⟨rest.calls + 1,
              baseRetryDelay * 2 ^ (attempt - 1) :: rest.delays,
              rest.result⟩
        else
          -- retryable and not the last attempt: delay inside `try`
          let rest := settleAux fac (attempt + 1) fuel
          ⟨rest.calls + 1,
            baseRetryDelay * 2 ^ (attempt - 1) :: rest.delays,
            rest.result⟩
    | .thrown msg =>
      -- network-level exception, lands in `catch`
      if fuel == 0 then
        ⟨1, [], .failure ("Payment settlement failed after " ++
          toString maxRetries ++ " attempts: " ++ msg)⟩
      else
        let rest := settleAux fac (attempt + 1) fuel
        ⟨rest.calls + 1,
          baseRetryDelay * 2 ^ (attempt - 1) :: rest.delays,
          rest.result⟩

/-- The `payload` object inside `paymentPayload`. -/
structure PaymentPayloadInner where
  from_ : String
  to_ : String
  value : String
  validAfter : Int
  validBefore : Int
  nonce : String
  v : Option Nat
  r : String
  s : String
deriving Repr, DecidableEq

/-- The `paymentPayload` member of the settle request. -/
structure PaymentPayload where
  scheme : String
  network : String
  payload : PaymentPayloadInner
deriving Repr, DecidableEq

/-- The `paymentRequirements` member of the settle request. -/
structure PaymentRequirementsWire where
  scheme : String
  network : String
  token : String
  amount : String
  recipient : String
  description : String
  maxTimeoutSeconds : Int
deriving Repr, DecidableEq

/-- The full body of `POST {base}/settle` assembled by
`settlePayment`. -/
structure FacSettleRequest where
  network : String
  token : String
  recipient : String
  amount : String
  nonce : String
  deadline : Int
  merchantAddress : String
  permit : Permit
  paymentPayload : PaymentPayload
  paymentRequirements : PaymentRequirementsWire
deriving Repr, DecidableEq

/-- Assembly of the settle request body, including the signature
decomposition `r = sig.slice(0, 66)`, `s = '0x' + sig.slice(66, 130)`,
`v = parseInt(sig.slice(130, 132), 16)`. -/
def buildFacSettleRequest (cfg : Config)
    (requirements : PaymentRequirements) (permit : Permit) :
    FacSettleRequest :=
  let signature := permit.sig
  let r := strSlice signature 0 66
  let s := "0x" ++ strSlice signature 66 130
  let v := parseIntHex (strSlice signature 130 132)
  { network := requirements.network
    token := requirements.token
    recipient := requirements.recipient
    amount := requirements.amount
    nonce := permit.nonce
    deadline := requirements.deadline
    merchantAddress := cfg.MERCHANT_ADDRESS
    permit := permit
    paymentPayload :=
      { scheme := "exact"
        network := requirements.network
        payload :=
          { from_ := permit.owner
            to_ := permit.spender
            value := permit.value
            validAfter := 0
            validBefore := permit.deadline
            nonce := permit.nonce
            v := v
            r := r
            s := s } }
    paymentRequirements :=
      { scheme := "exact"
        network := requirements.network
        token := requirements.token
        amount := requirements.amount
        recipient := requirements.recipient
        description := "EdgeFinder scan"
        maxTimeoutSeconds := 3600 } }

/-- What one call of `settlePayment` did: whether the dev bypass fired,
the settle request sent to the facilitator (none on the bypass or
configuration-error paths, which make no network call), and the
observable loop trace. -/
structure SettleTraceFull where
  usedBypass : Bool
  sentRequest : Option FacSettleRequest
  trace : SettleTrace
deriving Repr, DecidableEq

/-- Embedding of `settlePayment` from `src/services/payment.ts`.  `fac` gives the
facilitator's resolved outcome for each 1-indexed attempt. -/
def settlePayment (cfg : Config) (requirements : PaymentRequirements)
    (permit : Permit) (devBypass : Option String)
    (fac : Nat → AttemptOutcome) : SettleTraceFull :=
  if devBypassActive cfg devBypass then
    -- `return {success: true, txHash: 'dev-bypass', ...}` — no call
    ⟨true, none, ⟨0, [], .success "dev-bypass"⟩⟩
  else if cfg.FACILITATOR_API_URL == "" || cfg.FACILITATOR_API_KEY == ""
  then
    ⟨false, none,
      ⟨0, [], .failure "Facilitator configuration not available"⟩⟩
  else
    ⟨false, some (buildFacSettleRequest cfg requirements permit),
      settleAux fac 1 maxRetries⟩

/-! ## Supabase data access (`getLatestSharedDataset`,
`grantDatasetAccess`)

The store is modelled as the list of rows of the `shared_datasets`
table, error-free (the claims under consideration concern the
empty/expired/resolved cases, not transport failures).  `created_at`
and `expires_at` are ISO-8601 strings in the database, compared and
ordered chronologically; the model uses `Nat` timestamps, which are
order-isomorphic to them. -/

/-- One row of `shared_datasets`. -/
structure SharedDatasetRow where
  id : String
  items : List String
  created_at : Nat
  expires_at : Nat
deriving Repr, DecidableEq

/-- Semantics of `ORDER BY created_at DESC LIMIT 1`: a row with the greatest
`created_at`, `none` on an empty relation.  (How the database breaks
`created_at` ties is unspecified; the model fixes one choice, and the
theorems below only use membership and maximality.) -/
def mostRecent : List SharedDatasetRow → Option SharedDatasetRow
  | [] => none
  | r :: rest =>
    match mostRecent rest with
    | none => some r
    | some a => if a.created_at < r.created_at then some r else some a

/-- Embedding of `getLatestSharedDataset` from the Supabase service source: first
query rows with `expires_at > now` ordered by `created_at` descending,
limit 1; when that is empty, fall back to the most recent row
regardless of expiry; when the table is empty, throw. -/
def getLatestSharedDataset (now : Nat) (store : List SharedDatasetRow) :
    Except String SharedDatasetRow :=
  match mostRecent (store.filter (fun r => now < r.expires_at)) with
  | some row => .ok row
  | none =>
    match mostRecent store with
    | some row => .ok row
    | none =>
      .error "No shared dataset available. Pipeline may not have run yet."

/-- The entitlement row inserted by `grantDatasetAccess` (the generated
`id`/`created_at` columns are produced by the database). -/
structure EntitlementInsert where
  wallet_address : String
  shared_dataset_id : String
  tx_hash : String
  facilitator_response : Option String
  valid_until : Nat
deriving Repr, DecidableEq

/-- Embedding of `grantDatasetAccess` from the Supabase service source: resolve the
dataset row by `id` (`.eq('id', sharedDatasetId).limit(1)`), throw
when nothing resolves, otherwise insert exactly one entitlement row
whose `valid_until` is the resolved row's `expires_at`. -/
def grantDatasetAccess (store : List SharedDatasetRow)
    (walletAddress sharedDatasetId txHash : String)
    (facilitatorResponse : Option String) :
    Except String EntitlementInsert :=
  match (store.filter (fun r => r.id == sharedDatasetId)).head? with
  | none => .error "Failed to get shared dataset expiration"
  | some sharedDataset =>
    .ok
      { wallet_address := walletAddress
        shared_dataset_id := sharedDatasetId
        tx_hash := txHash
        facilitator_response := facilitatorResponse
        valid_until := sharedDataset.expires_at }

/-! ## Test fixtures

Concrete inputs used by the concrete-scenario theorems and witnesses. -/

/-- A production-style configuration with full facilitator settings. -/
def cfgLiveTest : Config :=
  { NODE_ENV := "production", DEV_BYPASS_SECRET := "",
    FACILITATOR_API_URL := "https://facilitator.example",
    FACILITATOR_API_KEY := "key", MERCHANT_ADDRESS := "0xMERCHANT" }

/-- A non-production configuration with a bypass secret set. -/
def cfgDevTest : Config :=
  { NODE_ENV := "development", DEV_BYPASS_SECRET := "letmein",
    FACILITATOR_API_URL := "https://facilitator.example",
    FACILITATOR_API_KEY := "key", MERCHANT_ADDRESS := "0xMERCHANT" }

/-- Concrete payment requirements. -/
def reqsTest : PaymentRequirements :=
  { network := "arbitrum", token := "0xTOKEN", recipient := "0xRECIP",
    amount := "1004500", nonce := "0xNONCE", deadline := 1730003600 }

/-- Concrete permit. -/
def permitTest : Permit :=
  { owner := "0xOWNER", spender := "0xSPENDER", value := "1004500",
    deadline := 1730003600, nonce := "0xNONCE", sig := "0xSIG" }

/-- A permit whose value/deadline/nonce all differ from `reqsTest`. -/
def permitMismatch : Permit :=
  { owner := "0xOWNER", spender := "0xSPENDER", value := "777",
    deadline := 42, nonce := "0xOTHER", sig := "0xSIG" }

/-- A facilitator that always answers HTTP 400 with a body that matches
none of the retryable substrings. -/
def fac400 : Nat → AttemptOutcome :=
  fun _ => .http 400 ⟨none, none, none⟩ "insufficient funds"

/-- A facilitator that answers HTTP 503 on attempts 1–3 and HTTP 200
with a transaction hash on attempt 4. -/
def fac503 : Nat → AttemptOutcome :=
  fun n =>
    if n < 4 then .http 503 ⟨none, none, none⟩ "Service Unavailable"
    else .http 200 ⟨some "0xtx123", none, none⟩ ""

/-- A facilitator whose `fetch` always rejects with a network error. -/
def facThrown : Nat → AttemptOutcome :=
  fun _ => .thrown "fetch failed"

/-! ## Helper lemmas on the settle loop -/

/-- The settle loop makes at most `fuel` facilitator calls. -/
theorem settleAux_calls_le (fac : Nat → AttemptOutcome) :
    ∀ (fuel attempt : Nat), (settleAux fac attempt fuel).calls ≤ fuel := by
  intro fuel
  induction fuel with
  | zero => intro attempt; simp [settleAux]
  | succ n ih =>
    intro attempt
    simp only [settleAux]
    cases fac attempt with
    | http status payload bodyText =>
      by_cases hok : respOk status = true
      · simp [hok]
      · by_cases hfuel : n == 0
        · simp only [Bool.not_eq_true] at hok
          simp [hok, hfuel]
        · simp only [Bool.not_eq_true] at hok
          simp only [hok, hfuel, Bool.false_eq_true, if_false]
          split <;> exact Nat.succ_le_succ (ih (attempt + 1))
    | thrown msg =>
      by_cases hfuel : n == 0
      · simp [hfuel]
      · simp only [hfuel, Bool.false_eq_true, if_false]
        exact Nat.succ_le_succ (ih (attempt + 1))

/-- An HTTP success response short-circuits: one call, no delay,
success with the extracted transaction hash. -/
theorem settleAux_success (fac : Nat → AttemptOutcome)
    (attempt fuel status : Nat) (payload : SettleData) (bodyText : String)
    (hfac : fac attempt = .http status payload bodyText)
    (hok : respOk status = true) :
    settleAux fac attempt (fuel + 1) =
      ⟨1, [], .success (extractTxHash payload)⟩ := by
  simp [settleAux, hfac, hok]

/-- Any non-success HTTP response with attempts remaining — retryable
or not, because the terminal `throw` is caught by the loop's own
`catch` — leads to a backoff delay of `baseRetryDelay * 2^(attempt-1)`
and a further attempt. -/
theorem settleAux_http_retries (fac : Nat → AttemptOutcome)
    (attempt fuel status : Nat) (payload : SettleData) (bodyText : String)
    (hfac : fac attempt = .http status payload bodyText)
    (hok : respOk status = false) (hfuel : fuel ≠ 0) :
    settleAux fac attempt (fuel + 1) =
      { calls := (settleAux fac (attempt + 1) fuel).calls + 1
        delays := baseRetryDelay * 2 ^ (attempt - 1) ::
          (settleAux fac (attempt + 1) fuel).delays
        result := (settleAux fac (attempt + 1) fuel).result } := by
  have hfuel' : (fuel == 0) = false := by simp [hfuel]
  simp only [settleAux, hfac, hok, hfuel', Bool.false_eq_true, if_false]
  split <;> rfl

/-- A thrown network error with attempts remaining leads to the same
backoff delay and a further attempt. -/
theorem settleAux_thrown_retries (fac : Nat → AttemptOutcome)
    (attempt fuel : Nat) (msg : String)
    (hfac : fac attempt = .thrown msg) (hfuel : fuel ≠ 0) :
    settleAux fac attempt (fuel + 1) =
      { calls := (settleAux fac (attempt + 1) fuel).calls + 1
        delays := baseRetryDelay * 2 ^ (attempt - 1) ::
          (settleAux fac (attempt + 1) fuel).delays
        result := (settleAux fac (attempt + 1) fuel).result } := by
  have hfuel' : (fuel == 0) = false := by simp [hfuel]
  simp [settleAux, hfac, hfuel']

/-! ## Claim theorems -/

/-- C1: the claim says a non-success facilitator response classified as
non-retryable (status below 500, body without the nonce-conflict or
database/internal-error substrings) makes `settlePayment` abort after
exactly one call with no backoff.  The code does NOT do that: the
terminal `throw` sits inside the `try` block and is caught by the
loop's own `catch`, which backs off and retries.  On a facilitator that
always answers HTTP 400 with body `"insufficient funds"` — classified
non-retryable — `settlePayment` makes 4 calls with backoff delays
1000, 2000, 4000 ms and only then fails. -/
theorem C1_terminal_failure_still_retried :
    isRetryable 400 "insufficient funds" = false ∧
    (settlePayment cfgLiveTest reqsTest permitTest none fac400).trace =
      { calls := 4, delays := [1000, 2000, 4000],
        result := .failure ("Payment settlement failed after 4 " ++
          "attempts: Payment settlement failed: insufficient funds") } ∧
    (settlePayment cfgLiveTest reqsTest permitTest none fac400).trace.calls
      ≠ 1 := by
  exact ⟨by decide, by decide, by decide⟩

/-- C2: `settlePayment` makes at most 4 facilitator attempts; an HTTP
success response on any attempt short-circuits immediately with a
successful result; a facilitator answering 503, 503, 503, 200 yields
success after exactly 4 calls with delays 1000, 2000, 4000 ms; and the
backoff delay recorded before attempt `n+1` is
`baseRetryDelay * 2^(n-1)` (attempts 1-indexed), both when the retry
was triggered by a classified retryable HTTP response and when it was
triggered by a thrown network error. -/
theorem C2_retry_budget_and_backoff :
    (∀ cfg reqs permit tok fac,
        (settlePayment cfg reqs permit tok fac).trace.calls ≤ 4) ∧
    (∀ (fac : Nat → AttemptOutcome) attempt fuel status payload bodyText,
        fac attempt = .http status payload bodyText →
        respOk status = true →
        settleAux fac attempt (fuel + 1) =
          { calls := 1, delays := [],
            result := .success (extractTxHash payload) }) ∧
    (settlePayment cfgLiveTest reqsTest permitTest none fac503).trace =
      { calls := 4, delays := [1000, 2000, 4000],
        result := .success "0xtx123" } ∧
    (∀ (fac : Nat → AttemptOutcome) attempt fuel status payload bodyText,
        fac attempt = .http status payload bodyText →
        respOk status = false → isRetryable status bodyText = true →
        fuel ≠ 0 →
        (settleAux fac attempt (fuel + 1)).delays.head? =
          some (baseRetryDelay * 2 ^ (attempt - 1))) ∧
    (∀ (fac : Nat → AttemptOutcome) attempt fuel msg,
        fac attempt = .thrown msg → fuel ≠ 0 →
        (settleAux fac attempt (fuel + 1)).delays.head? =
          some (baseRetryDelay * 2 ^ (attempt - 1))) := by
  refine ⟨?_, ?_, by decide, ?_, ?_⟩
  · intro cfg reqs permit tok fac
    unfold settlePayment
    split
    · simp
    · split
      · simp
      · exact settleAux_calls_le fac maxRetries 1
  · intro fac attempt fuel status payload bodyText hfac hok
    exact settleAux_success fac attempt fuel status payload bodyText hfac hok
  · intro fac attempt fuel status payload bodyText hfac hok _hretry hfuel
    rw [settleAux_http_retries fac attempt fuel status payload bodyText
      hfac hok hfuel]
    rfl
  · intro fac attempt fuel msg hfac hfuel
    rw [settleAux_thrown_retries fac attempt fuel msg hfac hfuel]
    rfl

/-- Witness for C2: the general parts applied at concrete inputs — the
budget bound on the 503 scenario, the short-circuit on attempt 4, and
the first-retry delay of 1000 ms for a classified 503 and for a thrown
network error. -/
theorem C2_retry_budget_and_backoff_witness :
    (settlePayment cfgLiveTest reqsTest permitTest none fac503).trace.calls
      ≤ 4 ∧
    settleAux fac503 4 1 =
      { calls := 1, delays := [], result := .success "0xtx123" } ∧
    (settleAux fac503 1 4).delays.head? = some 1000 ∧
    (settleAux facThrown 1 4).delays.head? = some 1000 := by
  refine ⟨C2_retry_budget_and_backoff.1 cfgLiveTest reqsTest permitTest
    none fac503, ?_, ?_, ?_⟩
  · have h := C2_retry_budget_and_backoff.2.1 fac503 4 0 200
      ⟨some "0xtx123", none, none⟩ "" (by decide) (by decide)
    simpa [extractTxHash, jsTruthyStr] using h
  · have h := C2_retry_budget_and_backoff.2.2.2.1 fac503 1 3 503
      ⟨none, none, none⟩ "Service Unavailable" (by decide) (by decide)
      (by decide) (by decide)
    simpa [baseRetryDelay] using h
  · have h := C2_retry_budget_and_backoff.2.2.2.2 facThrown 1 3
      "fetch failed" (by decide) (by decide)
    simpa [baseRetryDelay] using h

/-- The shared dev-bypass guard, unfolded to its logical content. -/
theorem devBypassActive_iff (cfg : Config) (tok : Option String) :
    devBypassActive cfg tok = true ↔
      cfg.NODE_ENV ≠ "production" ∧
        ∃ s, tok = some s ∧ s ≠ "" ∧ s = cfg.DEV_BYPASS_SECRET := by
  cases tok with
  | none => simp [devBypassActive, jsTruthyStr]
  | some s =>
    simp only [devBypassActive, jsTruthyStr, Bool.and_eq_true,
      decide_eq_true_eq, Option.getD_some, beq_iff_eq,
      Option.some.injEq, ne_eq]
    constructor
    · rintro ⟨⟨h₁, h₂⟩, h₃⟩
      exact ⟨h₁, s, rfl, by simpa using h₂, h₃⟩
    · rintro ⟨h₁, s', hs', h₂, h₃⟩
      cases hs'
      exact ⟨⟨h₁, by simpa using h₂⟩, h₃⟩

/-- The function `startPayment` fires its bypass branch exactly when the shared
guard holds. -/
theorem startPayment_usedBypass (cfg : Config) (nowMs : Nat)
    (freshNonce : String) (quote : QuoteOutcome) (w : String)
    (tok : Option String) :
    (startPayment cfg nowMs freshNonce quote w tok).usedBypass =
      devBypassActive cfg tok := by
  by_cases h : devBypassActive cfg tok = true
  · simp [startPayment, h]
  · simp only [Bool.not_eq_true] at h
    simp only [startPayment, h, Bool.false_eq_true, if_false]
    split
    · rfl
    · cases quote with
      | thrown msg => rfl
      | http status accepts bodyText =>
        simp only
        split
        · rfl
        · cases accepts with
          | nil => rfl
          | cons item rest =>
            simp only
            split <;> rfl

/-- The function `settlePayment` fires its bypass branch exactly when the shared
guard holds. -/
theorem settlePayment_usedBypass (cfg : Config)
    (reqs : PaymentRequirements) (permit : Permit) (tok : Option String)
    (fac : Nat → AttemptOutcome) :
    (settlePayment cfg reqs permit tok fac).usedBypass =
      devBypassActive cfg tok := by
  by_cases h : devBypassActive cfg tok = true
  · simp [settlePayment, h]
  · simp only [Bool.not_eq_true] at h
    simp only [settlePayment, h, Bool.false_eq_true, if_false]
    split <;> rfl

/-- C3: the development-bypass branch of `startPayment` and of
`settlePayment` is taken exactly when the environment is non-production
and the caller-supplied token is present, truthy, and equal to the
configured secret; when `NODE_ENV = "production"` the branch is never
taken, for every token value. -/
theorem C3_dev_bypass_guard :
    (∀ cfg nowMs freshNonce quote w tok,
        (startPayment cfg nowMs freshNonce quote w tok).usedBypass = true ↔
          cfg.NODE_ENV ≠ "production" ∧
            ∃ s, tok = some s ∧ s ≠ "" ∧ s = cfg.DEV_BYPASS_SECRET) ∧
    (∀ cfg reqs permit tok fac,
        (settlePayment cfg reqs permit tok fac).usedBypass = true ↔
          cfg.NODE_ENV ≠ "production" ∧
            ∃ s, tok = some s ∧ s ≠ "" ∧ s = cfg.DEV_BYPASS_SECRET) ∧
    (∀ cfg nowMs freshNonce quote w tok, cfg.NODE_ENV = "production" →
        (startPayment cfg nowMs freshNonce quote w tok).usedBypass =
          false) ∧
    (∀ cfg reqs permit tok fac, cfg.NODE_ENV = "production" →
        (settlePayment cfg reqs permit tok fac).usedBypass = false) := by
  refine ⟨?_, ?_, ?_, ?_⟩
  · intro cfg nowMs freshNonce quote w tok
    rw [startPayment_usedBypass]
    exact devBypassActive_iff cfg tok
  · intro cfg reqs permit tok fac
    rw [settlePayment_usedBypass]
    exact devBypassActive_iff cfg tok
  · intro cfg nowMs freshNonce quote w tok hprod
    rw [startPayment_usedBypass]
    rcases h : devBypassActive cfg tok with _ | _
    · rfl
    · exact absurd hprod ((devBypassActive_iff cfg tok).mp h).1
  · intro cfg reqs permit tok fac hprod
    rw [settlePayment_usedBypass]
    rcases h : devBypassActive cfg tok with _ | _
    · rfl
    · exact absurd hprod ((devBypassActive_iff cfg tok).mp h).1

/-- Witness for C3: in production the bypass is off even with the
matching secret supplied; in development with the matching secret it is
on. -/
theorem C3_dev_bypass_guard_witness :
    (startPayment cfgLiveTest 0 "" (.thrown "") "" (some "letmein")
        ).usedBypass = false ∧
    (settlePayment cfgLiveTest reqsTest permitTest (some "letmein")
        fac400).usedBypass = false ∧
    (startPayment cfgDevTest 0 "" (.thrown "") "" (some "letmein")
        ).usedBypass = true := by
  refine ⟨C3_dev_bypass_guard.2.2.1 cfgLiveTest 0 "" (.thrown "") ""
      (some "letmein") rfl,
    C3_dev_bypass_guard.2.2.2 cfgLiveTest reqsTest permitTest
      (some "letmein") fac400 rfl,
    (C3_dev_bypass_guard.1 cfgDevTest 0 "" (.thrown "") ""
      (some "letmein")).mpr ⟨by decide, "letmein", rfl, by decide, rfl⟩⟩

/-- C4: on the live quote path the request sent to the facilitator
carries `merchantAmount + serviceFee + gasFee` with
`serviceFee = merchantAmount * feeBasisPoints / 10000` in exact integer
(smallest-unit) arithmetic: service fee 4500, gas fee 100000, total
1004500. -/
theorem C4_fee_arithmetic :
    serviceFee = merchantAmount * feeBasisPoints / 10000 ∧
    serviceFee = 4500 ∧
    gasFee = 100000 ∧
    totalAmount = merchantAmount + serviceFee + gasFee ∧
    totalAmount = 1004500 ∧
    (∀ cfg nowMs freshNonce quote w tok req,
        (startPayment cfg nowMs freshNonce quote w tok).sentRequest =
          some req →
        req.amount = toString
          (merchantAmount + merchantAmount * feeBasisPoints / 10000 +
            gasFee) ∧
        req.amount = "1004500") := by
  refine ⟨rfl, by decide, by decide, rfl, by decide, ?_⟩
  intro cfg nowMs freshNonce quote w tok req h
  unfold startPayment at h
  split at h
  · exact absurd h (by simp)
  · split at h
    · exact absurd h (by simp)
    · rcases quote with status | msg
      case thrown => injection h with h'; subst h'; exact ⟨rfl, rfl⟩
      case http status accepts bodyText =>
        simp only at h
        split at h
        · injection h with h'; subst h'; exact ⟨rfl, rfl⟩
        · cases accepts with
          | nil => injection h with h'; subst h'; exact ⟨rfl, rfl⟩
          | cons item rest =>
            simp only at h
            split at h <;>
              (injection h with h'; subst h'; exact ⟨rfl, rfl⟩)

/-- Witness for C4: the quote request actually sent on the live path
carries the amount string `"1004500"`. -/
theorem C4_fee_arithmetic_witness :
    (startPayment cfgLiveTest 0 "" (.thrown "boom") "0xwallet" none
        ).sentRequest = some
      { amount := "1004500", memo := "EdgeFinder scan",
        network := "arbitrum", token := "USDC",
        merchantAddress := "0xMERCHANT" } ∧
    ({ amount := "1004500", memo := "EdgeFinder scan",
        network := "arbitrum", token := "USDC",
        merchantAddress := "0xMERCHANT" } : QuoteRequest).amount =
      "1004500" := by
  refine ⟨by decide, ?_⟩
  exact (C4_fee_arithmetic.2.2.2.2.2 cfgLiveTest 0 "" (.thrown "boom")
    "0xwallet" none _ (by decide)).2

/-- C7: the claim says that when the facilitator's accepted offer omits
a deadline, `startPayment` defaults it to the current Unix time in
seconds plus 3600.  The code computes `Date.now() + 3600000` instead —
epoch MILLISECONDS plus an hour of milliseconds (the dev-bypass branch
of the same file uses `Math.floor(Date.now() / 1000) + 3600`, and
`validatePermit` compares deadlines in seconds).  At
`Date.now() = 1730000000000` the returned deadline is 1730003600000,
not `1730000000000 / 1000 + 3600 = 1730003600`. -/
theorem C7_deadline_default_in_milliseconds :
    (startPayment cfgLiveTest 1730000000000 "0xfresh"
        (.http 200
          [{ network := "arbitrum", asset := "0xAsset",
             payTo := "0xPayTo", maxAmountRequired := "1004500",
             extraNonce := none, extraDeadline := none }] "")
        "0xwallet" none).result =
      .ok { network := "arbitrum", token := "0xAsset",
            recipient := "0xPayTo", amount := "1004500", nonce := "",
            deadline := 1730003600000 } ∧
    (1730003600000 : Int) ≠ 1730000000000 / 1000 + 3600 := by
  exact ⟨rfl, by decide⟩

/-- C10: `settlePayment` performs no cross-validation between the
permit and the requirements: whenever a settle request is sent, the
permit's value/deadline/nonce and the requirements' amount/deadline are
forwarded unchanged side by side; and the loop's observable outcome
(calls, delays, result) is a function of the configuration, the token
and the facilitator alone — identical for any two permit/requirements
pairs, mismatched or not, so no mismatch by itself causes settlement to
fail. -/
theorem C10_no_cross_validation :
    (∀ cfg reqs permit tok fac req,
        (settlePayment cfg reqs permit tok fac).sentRequest = some req →
        req.permit = permit ∧
        req.paymentPayload.payload.value = permit.value ∧
        req.paymentPayload.payload.validBefore = permit.deadline ∧
        req.paymentPayload.payload.nonce = permit.nonce ∧
        req.nonce = permit.nonce ∧
        req.amount = reqs.amount ∧
        req.deadline = reqs.deadline ∧
        req.paymentRequirements.amount = reqs.amount) ∧
    (∀ cfg tok fac reqs reqs' permit permit',
        (settlePayment cfg reqs permit tok fac).trace =
          (settlePayment cfg reqs' permit' tok fac).trace) := by
  constructor
  · intro cfg reqs permit tok fac req h
    unfold settlePayment at h
    split at h
    · exact absurd h (by simp)
    · split at h
      · exact absurd h (by simp)
      · injection h with h'
        subst h'
        exact ⟨rfl, rfl, rfl, rfl, rfl, rfl, rfl, rfl⟩
  · intro cfg tok fac reqs reqs' permit permit'
    unfold settlePayment
    split
    · rfl
    · split <;> rfl

/-- Witness for C10: the settle request assembled for `reqsTest` with
the mismatched `permitMismatch` (value 777 vs amount "1004500",
different nonce and deadline) forwards both sides unchanged, and the
loop outcome is the same as with the matching `permitTest`. -/
theorem C10_no_cross_validation_witness :
    ((buildFacSettleRequest cfgLiveTest reqsTest permitMismatch).permit =
        permitMismatch ∧
      (buildFacSettleRequest cfgLiveTest reqsTest permitMismatch
        ).paymentPayload.payload.value = permitMismatch.value ∧
      (buildFacSettleRequest cfgLiveTest reqsTest permitMismatch
        ).paymentPayload.payload.validBefore = permitMismatch.deadline ∧
      (buildFacSettleRequest cfgLiveTest reqsTest permitMismatch
        ).paymentPayload.payload.nonce = permitMismatch.nonce ∧
      (buildFacSettleRequest cfgLiveTest reqsTest permitMismatch
        ).nonce = permitMismatch.nonce ∧
      (buildFacSettleRequest cfgLiveTest reqsTest permitMismatch
        ).amount = reqsTest.amount ∧
      (buildFacSettleRequest cfgLiveTest reqsTest permitMismatch
        ).deadline = reqsTest.deadline ∧
      (buildFacSettleRequest cfgLiveTest reqsTest permitMismatch
        ).paymentRequirements.amount = reqsTest.amount) ∧
    (settlePayment cfgLiveTest reqsTest permitMismatch none fac503
      ).trace =
      (settlePayment cfgLiveTest reqsTest permitTest none fac503
      ).trace := by
  exact ⟨C10_no_cross_validation.1 cfgLiveTest reqsTest permitMismatch
      none fac503 _ rfl,
    C10_no_cross_validation.2 cfgLiveTest none fac503 reqsTest reqsTest
      permitMismatch permitTest⟩

/-- A string matched by `/^0x[a-fA-F0-9]{n}$/` has length `n + 2`. -/
theorem matchesHexRe_length {n : Nat} {s : String}
    (h : matchesHexRe n s = true) : s.length = n + 2 := by
  unfold matchesHexRe at h
  have hlen : s.length = s.toList.length := rfl
  cases hl : s.toList with
  | nil => rw [hl] at h; exact absurd h (by simp)
  | cons c rest =>
    rw [hl] at h
    cases c using Char.rec with
    | _ val valid =>
      rcases rest with _ | ⟨c₂, rest₂⟩
      · revert h
        split <;> intro h
        · next heq => simp_all
        · exact absurd h (by simp)
      · revert h
        split <;> intro h
        · next heq =>
          injection heq with h₁ h₂
          injection h₂ with h₃ h₄
          simp only [Bool.and_eq_true, beq_iff_eq] at h
          rw [hlen, hl, h₄]
          simp [h.1]
        · exact absurd h (by simp)

/-- C5: `validatePermit` returns true exactly when all six fields are
present and truthy, owner and spender pass the address validator, the
signature matches `0x` + 130 hex characters, the nonce matches `0x` +
64 hex characters, and the deadline is strictly in the future;
consequently every permit with `deadline ≤ now` is rejected, as is
every permit whose signature is not exactly 132 characters long. -/
theorem C5_validatePermit_characterization :
    (∀ (isValidAddress : String → Bool) (now : Int) (p : PermitInput),
        validatePermit isValidAddress now p = true ↔
          ((∃ o, p.owner = some o ∧ o ≠ "" ∧ isValidAddress o = true) ∧
           (∃ sp, p.spender = some sp ∧ sp ≠ "" ∧
              isValidAddress sp = true) ∧
           (∃ v, p.value = some v ∧ v ≠ "") ∧
           (∃ d, p.deadline = some d ∧ d ≠ 0 ∧ now < d) ∧
           (∃ nn, p.nonce = some nn ∧ nn ≠ "" ∧
              matchesHexRe 64 nn = true) ∧
           (∃ sg, p.sig = some sg ∧ sg ≠ "" ∧
              matchesHexRe 130 sg = true))) ∧
    (∀ (isValidAddress : String → Bool) (now : Int) (p : PermitInput) d,
        p.deadline = some d → d ≤ now →
        validatePermit isValidAddress now p = false) ∧
    (∀ (isValidAddress : String → Bool) (now : Int) (p : PermitInput) sg,
        p.sig = some sg → sg.length ≠ 132 →
        validatePermit isValidAddress now p = false) := by
  refine ⟨?_, ?_, ?_⟩
  · intro f now p
    obtain ⟨o, sp, v, d, nn, sg⟩ := p
    cases o <;> cases sp <;> cases v <;> cases d <;> cases nn <;>
      cases sg <;>
      simp [validatePermit, jsTruthyStr, jsTruthyInt] <;> tauto
  · intro f now p d hd hle
    obtain ⟨o, sp, v, d', nn, sg⟩ := p
    simp only [PermitInput.mk.injEq] at hd ⊢
    subst hd
    simp only [validatePermit, jsTruthyInt, Option.getD_some]
    by_cases hz : d = 0
    · subst hz; simp
    · simp [hz, not_lt.mpr hle]
  · intro f now p sg hsg hlen
    obtain ⟨o, sp, v, d, nn, sg'⟩ := p
    simp only at hsg
    subst hsg
    have hre : matchesHexRe 130 sg = false := by
      rcases hm : matchesHexRe 130 sg with _ | _
      · rfl
      · exact absurd (matchesHexRe_length hm) hlen
    simp [validatePermit, hre]

/-- A concrete address validator for witnesses: the checksum-agnostic
canonical address shape (40 hex characters after `0x`). -/
def isValidAddressTest : String → Bool := matchesHexRe 40

/-- A concrete well-formed address. -/
def addrTest : String := "0xaaaaaaaaaaaaaaaaaaaaaaaaaaaaaaaaaaaaaaaa"

/-- A concrete well-formed 32-byte nonce. -/
def nonceTest : String := "0xbbbbbbbbbbbbbbbbbbbbbbbbbbbbbbbbbbbbbbbbbbbbbbbbbbbbbbbbbbbbbbbb"

/-- A concrete well-formed 65-byte signature (132 characters). -/
def sigTest : String := "0xcccccccccccccccccccccccccccccccccccccccccccccccccccccccccccccccccccccccccccccccccccccccccccccccccccccccccccccccccccccccccccccccccc"

/-- A fully well-formed permit input with a future deadline
(relative to `now = 1730000000`). -/
def permitInputGood : PermitInput :=
  { owner := some addrTest, spender := some addrTest,
    value := some "1004500", deadline := some 1730003600,
    nonce := some nonceTest, sig := some sigTest }

/-- The same permit input with an expired deadline. -/
def permitInputExpired : PermitInput :=
  { owner := some addrTest, spender := some addrTest,
    value := some "1004500", deadline := some 999,
    nonce := some nonceTest, sig := some sigTest }

set_option maxRecDepth 8192 in
/-- Witness for C5: the characterization accepts the well-formed permit
and the deadline clause rejects the expired one. -/
theorem C5_validatePermit_characterization_witness :
    validatePermit isValidAddressTest 1730000000 permitInputGood =
      true ∧
    validatePermit isValidAddressTest 1730000000 permitInputExpired =
      false := by
  refine ⟨(C5_validatePermit_characterization.1 isValidAddressTest
      1730000000 permitInputGood).mpr
      ⟨⟨addrTest, rfl, by decide, by decide⟩,
       ⟨addrTest, rfl, by decide, by decide⟩,
       ⟨"1004500", rfl, by decide⟩,
       ⟨1730003600, rfl, by decide, by decide⟩,
       ⟨nonceTest, rfl, by decide, by decide⟩,
       ⟨sigTest, rfl, by decide, by decide⟩⟩, ?_⟩
  exact C5_validatePermit_characterization.2.1 isValidAddressTest
    1730000000 permitInputExpired 999 rfl (by decide)

/-- C6: `validateRequirements` returns true exactly when all six
fields are present and truthy, the network is the single supported
chain identifier `"arbitrum"`, and recipient and token pass the
address validator.  It is a total boolean function (it never raises),
and the result does not depend on the deadline's value beyond
truthiness — so a structurally valid requirements object is accepted
even when its (truthy) deadline lies in the past. -/
theorem C6_validateRequirements_characterization :
    (∀ (isValidAddress : String → Bool) (r : RequirementsInput),
        validateRequirements isValidAddress r = true ↔
          ((∃ n, r.network = some n ∧ n ≠ "" ∧ n = "arbitrum") ∧
           (∃ t, r.token = some t ∧ t ≠ "" ∧ isValidAddress t = true) ∧
           (∃ rc, r.recipient = some rc ∧ rc ≠ "" ∧
              isValidAddress rc = true) ∧
           (∃ a, r.amount = some a ∧ a ≠ "") ∧
           (∃ nn, r.nonce = some nn ∧ nn ≠ "") ∧
           (∃ d, r.deadline = some d ∧ d ≠ 0))) ∧
    (∀ (isValidAddress : String → Bool) (r : RequirementsInput) d d',
        d ≠ 0 → d' ≠ 0 →
        validateRequirements isValidAddress
            { r with deadline := some d } =
          validateRequirements isValidAddress
            { r with deadline := some d' }) := by
  constructor
  · intro f r
    obtain ⟨n, t, rc, a, nn, d⟩ := r
    cases n <;> cases t <;> cases rc <;> cases a <;> cases nn <;>
      cases d <;>
      simp [validateRequirements, jsTruthyStr, jsTruthyInt] <;> tauto
  · intro f r d d' hd hd'
    obtain ⟨n, t, rc, a, nn, _⟩ := r
    simp [validateRequirements, jsTruthyInt, hd, hd']

/-- Witness for C6: a requirements object whose truthy deadline `1`
(far in the past) passes every structural check is accepted, and the
result is unchanged when the deadline is replaced by a future one. -/
theorem C6_validateRequirements_characterization_witness :
    validateRequirements isValidAddressTest
      { network := some "arbitrum", token := some addrTest,
        recipient := some addrTest, amount := some "1004500",
        nonce := some nonceTest, deadline := some 1 } = true ∧
    validateRequirements isValidAddressTest
        { network := some "arbitrum", token := some addrTest,
          recipient := some addrTest, amount := some "1004500",
          nonce := some nonceTest, deadline := some 1 } =
      validateRequirements isValidAddressTest
        { network := some "arbitrum", token := some addrTest,
          recipient := some addrTest, amount := some "1004500",
          nonce := some nonceTest, deadline := some 1730003600 } := by
  constructor
  · exact (C6_validateRequirements_characterization.1 isValidAddressTest
      _).mpr
      ⟨⟨"arbitrum", rfl, by decide, rfl⟩,
       ⟨addrTest, rfl, by decide, by decide⟩,
       ⟨addrTest, rfl, by decide, by decide⟩,
       ⟨"1004500", rfl, by decide⟩,
       ⟨nonceTest, rfl, by decide⟩,
       ⟨1, rfl, by decide⟩⟩
  · exact C6_validateRequirements_characterization.2 isValidAddressTest
      { network := some "arbitrum", token := some addrTest,
        recipient := some addrTest, amount := some "1004500",
        nonce := some nonceTest, deadline := some 1 }
      1 1730003600 (by decide) (by decide)

/-! ## Helper lemmas on `mostRecent` -/

/-- The function `mostRecent` returns `none` exactly on the empty relation. -/
theorem mostRecent_eq_none {rows : List SharedDatasetRow} :
    mostRecent rows = none ↔ rows = [] := by
  cases rows with
  | nil => simp [mostRecent]
  | cons r rest =>
    cases hr : mostRecent rest with
    | none => simp [mostRecent, hr]
    | some a =>
      simp only [mostRecent, hr]
      constructor
      · intro h
        split at h <;> exact absurd h (by simp)
      · intro h; exact absurd h (by simp)

/-- A row returned by `mostRecent` belongs to the relation. -/
theorem mostRecent_mem {rows : List SharedDatasetRow}
    {a : SharedDatasetRow} (h : mostRecent rows = some a) : a ∈ rows := by
  induction rows with
  | nil => exact absurd h (by simp [mostRecent])
  | cons r rest ih =>
    cases hr : mostRecent rest with
    | none =>
      simp only [mostRecent, hr] at h
      injection h with h'
      subst h'
      simp
    | some b =>
      simp only [mostRecent, hr] at h
      split at h <;> (injection h with h'; subst h')
      · simp
      · exact List.mem_cons_of_mem r (ih hr)

/-- A row returned by `mostRecent` has maximal `created_at`. -/
theorem mostRecent_max :
    ∀ {rows : List SharedDatasetRow} {a : SharedDatasetRow},
      mostRecent rows = some a →
      ∀ b ∈ rows, b.created_at ≤ a.created_at := by
  intro rows
  induction rows with
  | nil => intro a h; exact absurd h (by simp [mostRecent])
  | cons r rest ih =>
    intro a h b hb
    cases hr : mostRecent rest with
    | none =>
      simp only [mostRecent, hr] at h
      injection h with h'
      subst h'
      rcases List.mem_cons.mp hb with rfl | hb'
      · exact le_refl _
      · exact absurd (mostRecent_eq_none.mp hr ▸ hb') (by simp)
    | some c =>
      simp only [mostRecent, hr] at h
      rcases List.mem_cons.mp hb with rfl | hb'
      · split at h <;> (injection h with h'; subst h')
        · exact le_refl _
        · next hlt => exact le_of_not_lt (by simpa using hlt)
      · have hc := ih hr b hb'
        split at h <;> (injection h with h'; subst h')
        · next hlt => exact le_trans hc (le_of_lt hlt)
        · exact hc

/-- C8: `getLatestSharedDataset` returns a most recently created
unexpired dataset when one exists; when the store is nonempty but every
row is expired it returns a most recently created row rather than
failing; and on an empty store it fails with the no-data-available
error. -/
theorem C8_latest_dataset_policy :
    (∀ now store (r : SharedDatasetRow), r ∈ store →
        now < r.expires_at →
        ∃ a, getLatestSharedDataset now store = .ok a ∧ a ∈ store ∧
          now < a.expires_at ∧
          ∀ b ∈ store, now < b.expires_at →
            b.created_at ≤ a.created_at) ∧
    (∀ now store, store ≠ [] →
        (∀ r ∈ store, r.expires_at ≤ now) →
        ∃ a, getLatestSharedDataset now store = .ok a ∧ a ∈ store ∧
          ∀ b ∈ store, b.created_at ≤ a.created_at) ∧
    (∀ now, getLatestSharedDataset now [] =
        .error
          "No shared dataset available. Pipeline may not have run yet.") := by
  refine ⟨?_, ?_, fun now => rfl⟩
  · intro now store r hr hexp
    have hrf : r ∈ store.filter (fun x => now < x.expires_at) := by
      simp [List.mem_filter, hr, hexp]
    have hne : store.filter (fun x => now < x.expires_at) ≠ [] := by
      intro hnil; rw [hnil] at hrf; exact absurd hrf (by simp)
    cases hm : mostRecent (store.filter (fun x => now < x.expires_at))
      with
    | none => exact absurd (mostRecent_eq_none.mp hm) hne
    | some a =>
      refine ⟨a, ?_, ?_, ?_, ?_⟩
      · simp [getLatestSharedDataset, hm]
      · exact (List.mem_filter.mp (mostRecent_mem hm)).1
      · have := (List.mem_filter.mp (mostRecent_mem hm)).2
        simpa using this
      · intro b hb hbexp
        exact mostRecent_max hm b (by simp [List.mem_filter, hb, hbexp])

  · intro now store hne hall
    have hfil : store.filter (fun x => now < x.expires_at) = [] := by
      apply List.filter_eq_nil_iff.mpr
      intro r hr
      simpa using not_lt.mpr (hall r hr)
    cases hm : mostRecent store with
    | none => exact absurd (mostRecent_eq_none.mp hm) hne
    | some a =>
      refine ⟨a, ?_, mostRecent_mem hm, mostRecent_max hm⟩
      simp [getLatestSharedDataset, hfil, mostRecent, hm]

/-- An expired dataset created earlier. -/
def dsExpiredOld : SharedDatasetRow :=
  { id := "ds-old", items := ["row1"], created_at := 10, expires_at := 15 }

/-- An expired dataset created later. -/
def dsExpiredNew : SharedDatasetRow :=
  { id := "ds-new", items := ["row2"], created_at := 16, expires_at := 18 }

/-- An unexpired dataset (relative to `now = 20`, expiry 30). -/
def dsActive : SharedDatasetRow :=
  { id := "ds-act", items := ["row3"], created_at := 12, expires_at := 30 }

/-- Witness for C8: with an unexpired dataset present it is preferred;
with only expired datasets the most recent one is returned; the empty
store fails. -/
theorem C8_latest_dataset_policy_witness :
    (∃ a, getLatestSharedDataset 20 [dsExpiredOld, dsActive] = .ok a ∧
        a ∈ [dsExpiredOld, dsActive] ∧ 20 < a.expires_at ∧
        ∀ b ∈ [dsExpiredOld, dsActive], 20 < b.expires_at →
          b.created_at ≤ a.created_at) ∧
    (∃ a, getLatestSharedDataset 20 [dsExpiredOld, dsExpiredNew] =
        .ok a ∧ a ∈ [dsExpiredOld, dsExpiredNew] ∧
        ∀ b ∈ [dsExpiredOld, dsExpiredNew],
          b.created_at ≤ a.created_at) ∧
    getLatestSharedDataset 20 [] =
      .error
        "No shared dataset available. Pipeline may not have run yet." := by
  refine ⟨C8_latest_dataset_policy.1 20 [dsExpiredOld, dsActive]
      dsActive (by simp) (by decide), ?_,
    C8_latest_dataset_policy.2.2 20⟩
  refine C8_latest_dataset_policy.2.1 20 [dsExpiredOld, dsExpiredNew]
    (by simp) ?_
  intro r hr
  rcases List.mem_cons.mp hr with rfl | hr'
  · decide
  · rcases List.mem_cons.mp hr' with rfl | hr''
    · decide
    · exact absurd hr'' (by simp)

/-- C9: `grantDatasetAccess` fails with the dataset-unavailable error
when no stored dataset has the requested id, and otherwise produces
exactly one entitlement row whose `valid_until` equals the resolved
dataset's `expires_at` at creation time (a copied value, not a live
reference). -/
theorem C9_grant_entitlement :
    (∀ store w dsId tx fr, (∀ r ∈ store, r.id ≠ dsId) →
        grantDatasetAccess store w dsId tx fr =
          .error "Failed to get shared dataset expiration") ∧
    (∀ store w dsId tx fr e,
        grantDatasetAccess store w dsId tx fr = .ok e →
        ∃ ds, ds ∈ store ∧ ds.id = dsId ∧
          e = { wallet_address := w, shared_dataset_id := dsId,
                tx_hash := tx, facilitator_response := fr,
                valid_until := ds.expires_at }) := by
  constructor
  · intro store w dsId tx fr hnone
    have hfil : store.filter (fun r => r.id == dsId) = [] := by
      apply List.filter_eq_nil_iff.mpr
      intro r hr
      simpa using hnone r hr
    simp [grantDatasetAccess, hfil]
  · intro store w dsId tx fr e h
    unfold grantDatasetAccess at h
    cases hh : (store.filter (fun r => r.id == dsId)).head? with
    | none => rw [hh] at h; exact absurd h (by simp)
    | some ds =>
      rw [hh] at h
      injection h with h'
      have hmem : ds ∈ store.filter (fun r => r.id == dsId) :=
        List.mem_of_mem_head? hh
      refine ⟨ds, (List.mem_filter.mp hmem).1, ?_, h'.symm⟩
      have := (List.mem_filter.mp hmem).2
      simpa using this

/-- Witness for C9: with the store `[dsActive]`, an unknown id fails
with the dataset-unavailable error, and granting against `"ds-act"`
yields the entitlement row carrying `dsActive`'s expiry 30 as
`valid_until`. -/
theorem C9_grant_entitlement_witness :
    grantDatasetAccess [dsActive] "0xWALLET" "nope" "0xTX" none =
      .error "Failed to get shared dataset expiration" ∧
    (∃ ds, ds ∈ [dsActive] ∧ ds.id = "ds-act" ∧
      ({ wallet_address := "0xWALLET", shared_dataset_id := "ds-act",
         tx_hash := "0xTX", facilitator_response := none,
         valid_until := 30 } : EntitlementInsert) =
        { wallet_address := "0xWALLET", shared_dataset_id := "ds-act",
          tx_hash := "0xTX", facilitator_response := none,
          valid_until := ds.expires_at }) := by
  constructor
  · refine C9_grant_entitlement.1 [dsActive] "0xWALLET" "nope" "0xTX"
      none ?_
    intro r hr
    rcases List.mem_cons.mp hr with rfl | hr'
    · decide
    · exact absurd hr' (by simp)
  · exact C9_grant_entitlement.2 [dsActive] "0xWALLET" "ds-act" "0xTX"
      none _ rfl

end EdgeFinder
